import Mathlib

set_option maxRecDepth 100000

/-!
Shallow embedding of the study-plan generator backend
(`backend/app.js`) and proofs about its specification claims.

The embedding covers:
* `generateFallbackPlan` — the deterministic fallback plan template;
* the `/generate-plan` request handler: field validation, the
  model-fallback loop over the fixed candidate list, prompt-echo
  stripping, persistence of plan records, and the response shapes.

Numbers are modelled as exact naturals: the JavaScript source computes
`Math.ceil(durationWeeks * 0.7)` on IEEE doubles, which agrees with the
exact ceiling for all week counts that arise from realistic duration
strings; the embedding uses the exact value.  String operations are
modelled on the character sequence (`List Char`), which agrees with the
JavaScript semantics on the character data relevant here.
-/

/-- First maximal run of ASCII digits in a character list, as in
`duration.match(/\d+/)`: `none` when the string has no digit. -/
def firstDigitRun : List Char → Option (List Char)
  | [] => none
  | c :: cs => if c.isDigit then some (c :: cs.takeWhile Char.isDigit) else firstDigitRun cs

/-- Numeric value of a run of ASCII digits, as `parseInt` reads it
(leading zeros allowed). -/
def digitsToNat (ds : List Char) : Nat :=
  ds.foldl (fun a c => 10 * a + (c.toNat - '0'.toNat)) 0

/-- `parseInt(duration.match(/\d+/)) || 4` from `generateFallbackPlan`:
the first digit run of the duration string, with `4` substituted when
there is no digit (`parseInt(null)` is `NaN`, falsy) or when the run
parses to `0` (also falsy). -/
def parseWeeks (duration : String) : Nat :=
  match firstDigitRun duration.data with
  | none => 4
  | some ds => if digitsToNat ds = 0 then 4 else digitsToNat ds

/-- `Math.ceil(durationWeeks * 0.7)` in exact arithmetic: the ceiling of
`7 * w / 10`. -/
def ceil70 (w : Nat) : Nat := (7 * w + 9) / 10

/-- Body of the fallback plan template, with the parsed week count as an
explicit parameter.  This is the template literal of
`generateFallbackPlan` in `backend/app.js`, lines 37–82, transcribed
segment by segment; the three `durationWeeks > 2` / `durationWeeks > 3`
conditionals are the ones interpolated in the source.  (The source also
computes a `weeksText` variable, `durationWeeks > 1 ? 'weeks' : 'week'`,
which is never interpolated into the template and so does not appear in
the output.) -/
def fallbackPlanBody (subject level duration goals : String) (durationWeeks : Nat) : String :=
  "Study Plan for " ++ subject ++ " (" ++ level ++ " Level)\nDuration: " ++ duration ++
  "\nGoals: " ++ goals ++ "\n\n=== STUDY PLAN OVERVIEW ===\n\n" ++
  "Phase 1: Foundation (Week 1" ++ (if 2 < durationWeeks then "-2" else "") ++ ")\n" ++
  "- Review fundamental concepts\n- Gather materials\n- Establish routine (1-2 hrs/day)\n- Do basic exercises\n\n" ++
  "Phase 2: Core Learning (Week " ++
  (if 2 < durationWeeks then "3-" ++ toString (ceil70 durationWeeks) else "2") ++ ")\n" ++
  "- Deep dive into core topics\n- Practice problem-solving\n- Create notes/mind maps\n\n" ++
  "Phase 3: Advanced Application (Week " ++ toString (ceil70 durationWeeks + 1) ++ "-" ++
  toString (durationWeeks - 1) ++ ")\n" ++
  "- Complex topics + real-world use\n- Case studies and scenarios\n- Integration of topics\n\n" ++
  "Phase 4: Review & Mastery (Final Week)\n" ++
  "- Final revision\n- Mock tests\n- Confidence boosting\n\n" ++
  "=== DAILY STRUCTURE ===\n\n" ++
  "Morning: Recap previous, prep new (~30 min)\nMidday: Learn/practice new (~60–90 min)\nEvening: Summarize & plan (~15 min)\n\n" ++
  "=== WEEKLY MILESTONES ===\n\n" ++
  "Week 1: Foundation\nWeek 2: Core modules\n" ++
  (if 2 < durationWeeks then "Week 3: Applications\n" else "") ++
  (if 3 < durationWeeks then "Week 4: Mastery\n" else "") ++
  "Final Week: Goal ready!\n\n" ++
  "Tips:\n- Use Pomodoro\n- Review often\n- Join groups / Ask questions\n- Be consistent\n\n" ++
  "(This is a fallback plan when AI is unavailable.)"

/-- `generateFallbackPlan(subject, level, duration, goals)` from
`backend/app.js`: parse the week count from the duration and fill the
template. -/
def generateFallbackPlan (subject level duration goals : String) : String :=
  fallbackPlanBody subject level duration goals (parseWeeks duration)

/-- Remove the first occurrence of `pat` from a character list, scanning
left to right; the list is unchanged when `pat` does not occur.  This is
`s.replace(pat, '')` with a string pattern in JavaScript, which replaces
only the first occurrence. -/
def removeFirstGo (pat : List Char) : List Char → List Char
  | [] => []
  | c :: cs =>
    if (c :: cs).take pat.length = pat then (c :: cs).drop pat.length
    else c :: removeFirstGo pat cs

/-- `s.replace(pat, '')` for a string pattern: remove the first
occurrence of `pat` from `s`. -/
def replaceFirst (s pat : String) : String :=
  ⟨removeFirstGo pat.data s.data⟩

/-- `s.trim()`: drop whitespace characters from both ends. -/
def jsTrim (s : String) : String :=
  ⟨((s.data.dropWhile Char.isWhitespace).reverse.dropWhile Char.isWhitespace).reverse⟩

/-- `response.generated_text.replace(prompt, '').trim()` from the
accepted branch of the model loop (`backend/app.js`, line 163). -/
def stripAndTrim (prompt t : String) : String :=
  jsTrim (replaceFirst t prompt)

/-- The prompt built by `/generate-plan` (`backend/app.js`,
lines 121–135). -/
def buildPrompt (subject level duration goals : String) : String :=
  "Create a personalized study plan:\n\nSubject: " ++ subject ++ "\nLevel: " ++ level ++
  "\nDuration: " ++ duration ++ "\nGoals: " ++ goals ++
  "\n\nInclude:\n1. Overview\n2. Weekly breakdown\n3. Daily study schedule\n4. Milestones\n5. Assessments\n6. Resources\n7. Learning tips"

/-- The fixed ordered list of candidate models (`backend/app.js`,
lines 137–143). -/
def models : List String :=
  ["mistralai/Mistral-7B-Instruct-v0.3",
   "microsoft/DialoGPT-medium",
   "google/flan-t5-large",
   "facebook/blenderbot-400M-distill",
   "bigscience/bloom-560m"]

/-- Request body of `POST /generate-plan`; each field is `none` when
absent from the JSON body. -/
structure PlanRequest where
  subject : Option String
  level : Option String
  duration : Option String
  goals : Option String
deriving DecidableEq

/-- JavaScript falsiness of a request field: absent (`undefined`) or the
empty string. -/
def falsy : Option String → Bool
  | none => true
  | some s => s = ""

/-- Value of a present request field. -/
def getStr : Option String → String
  | none => ""
  | some s => s

/-- Outcomes of the two external services for one request:
`genText m` is the `generated_text` of the inference call to model `m`
(`none` when the call throws or the field is missing), `persist m` is
the document id assigned when persisting the AI record accepted from
model `m` (`none` when the write throws), and `persistFallback` is the
same for the fallback record. -/
structure Env where
  genText : String → Option String
  persist : String → Option String
  persistFallback : Option String

/-- One attempted write to the `studyPlans` collection (the argument of
`db.collection('studyPlans').add`, minus the server timestamp). -/
structure WriteRec where
  subject : String
  level : String
  duration : String
  goals : String
  plan : String
  modelUsed : String
  isAiGenerated : Bool
deriving DecidableEq

/-- JSON response of `POST /generate-plan`; absent keys are `none`. -/
structure GenResponse where
  status : Nat
  success : Option Bool
  plan : Option String
  planId : Option String
  modelUsed : Option String
  isAiGenerated : Option Bool
  message : Option String
  warning : Option String
  error : Option String
deriving DecidableEq

/-- A run of the handler: the response sent, the models to which a
text-generation call was issued (in order), and the writes attempted on
the document store (in order, including writes that failed). -/
structure HandlerTrace where
  response : GenResponse
  genCalls : List String
  dbWrites : List WriteRec
deriving DecidableEq

/-- The model loop of `/generate-plan` (`backend/app.js`, lines
148–186).  For each candidate in order: issue the text-generation call;
on a thrown error or missing/short `generated_text` fall through to the
next candidate; when the raw `generated_text` has length at least 100,
strip the echoed prompt and trim, then attempt the document write —
inside the same `try`, so a failed write is caught and the loop
continues with the next candidate.  Returns the calls issued, the
writes attempted, and the response of the accepted branch if any. -/
def tryModels (env : Env) (subject level duration goals prompt : String) :
    List String → List String × List WriteRec × Option GenResponse
  | [] => ([], [], none)
  | m :: rest =>
    match env.genText m with
    | some t =>
      if 100 ≤ t.length then
        let generatedText := stripAndTrim prompt t
        let rec0 : WriteRec := ⟨subject, level, duration, goals, generatedText, m, true⟩
        match env.persist m with
        | some id =>
          ([m], [rec0],
           some { status := 200, success := some true, plan := some generatedText,
                  planId := some id, modelUsed := some m, isAiGenerated := some true,
                  message := none, warning := none, error := none })
        | none =>
          let r := tryModels env subject level duration goals prompt rest
          (m :: r.1, rec0 :: r.2.1, r.2.2)
      else
        let r := tryModels env subject level duration goals prompt rest
        (m :: r.1, r.2.1, r.2.2)
    | none =>
      let r := tryModels env subject level duration goals prompt rest
      (m :: r.1, r.2.1, r.2.2)

/-- `/generate-plan` after validation has passed (`backend/app.js`,
lines 121–215): build the prompt, run the model loop; if no candidate
was accepted, build the fallback plan and attempt to persist it, and
answer with the fallback plan whether or not that write succeeded (a
failed fallback write is reported only through the `warning` key). -/
def generatePlanCore (env : Env) (subject level duration goals : String) : HandlerTrace :=
  let prompt := buildPrompt subject level duration goals
  match tryModels env subject level duration goals prompt models with
  | (calls, ws, some resp) => ⟨resp, calls, ws⟩
  | (calls, ws, none) =>
    let fallbackPlan := generateFallbackPlan subject level duration goals
    let fbRec : WriteRec := ⟨subject, level, duration, goals, fallbackPlan, "fallback", false⟩
    match env.persistFallback with
    | some id =>
      ⟨{ status := 200, success := some true, plan := some fallbackPlan,
         planId := some id, modelUsed := some "fallback", isAiGenerated := some false,
         message := some "AI service unavailable, fallback used", warning := none,
         error := none }, calls, ws ++ [fbRec]⟩
    | none =>
      ⟨{ status := 200, success := some true, plan := some fallbackPlan,
         planId := none, modelUsed := some "fallback", isAiGenerated := some false,
         message := none, warning := some "Fallback plan not saved due to DB error",
         error := none }, calls, ws ++ [fbRec]⟩

/-- The `POST /generate-plan` handler (`backend/app.js`, lines
114–216): reject with a 400 and no side effects when any of the four
fields is falsy, otherwise run the core. -/
def generatePlanHandler (env : Env) (req : PlanRequest) : HandlerTrace :=
  if falsy req.subject || falsy req.level || falsy req.duration || falsy req.goals then
    ⟨{ status := 400, success := none, plan := none, planId := none, modelUsed := none,
       isAiGenerated := none, message := none, warning := none,
       error := some "All fields are required" }, [], []⟩
  else
    generatePlanCore env (getStr req.subject) (getStr req.level)
      (getStr req.duration) (getStr req.goals)

/-- Substring test at the character level, used to state claims about
segments of concrete plans. -/
def hasSegGo (seg : List Char) : List Char → Bool
  | [] => decide (seg = [])
  | c :: cs => decide ((c :: cs).take seg.length = seg) || hasSegGo seg cs

/-- `hasSeg s seg` holds when `seg` occurs contiguously in `s`. -/
def hasSeg (s seg : String) : Bool :=
  hasSegGo seg.data s.data

/-- First candidate model of the fallback chain. -/
def model1 : String := "mistralai/Mistral-7B-Instruct-v0.3"

/-- Second candidate model of the fallback chain. -/
def model2 : String := "microsoft/DialoGPT-medium"

/-- A concrete valid request body. -/
def reqC : PlanRequest :=
  ⟨some "Math", some "Beginner", some "2 weeks", some "pass exam"⟩

/-- The prompt built for `reqC`. -/
def promptC : String := buildPrompt "Math" "Beginner" "2 weeks" "pass exam"

/-- A 120-character response text with no occurrence of the prompt. -/
def longB : String := ⟨List.replicate 120 'b'⟩

/-- Environment in which the first model echoes exactly the prompt (a
long raw text whose prompt-stripped remainder is empty) and its record
write succeeds. -/
def envC1 : Env :=
  ⟨fun m => if m = model1 then some promptC else none,
   fun m => if m = model1 then some "id1" else none,
   some "fid"⟩

/-- Environment in which the first and second models both return long
texts but only the second model's record write succeeds. -/
def envC2 : Env :=
  ⟨fun m => if m = model1 then some (promptC ++ longB)
    else if m = model2 then some longB else none,
   fun m => if m = model2 then some "id2" else none,
   some "fid"⟩

/-- Environment in which the first model returns a long text, every
record write for an AI plan fails, the other models throw, and the
fallback record write succeeds. -/
def envC3 : Env :=
  ⟨fun m => if m = model1 then some (promptC ++ "EXTRA STUDY CONTENT") else none,
   fun _ => none,
   some "fid"⟩

/-- A request environment in which every model call and every document
write throws. -/
def envNone : Env := ⟨fun _ => none, fun _ => none, none⟩

/-- Environment in which the first model returns `longB` and its record
write succeeds. -/
def envW1 : Env :=
  ⟨fun m => if m = model1 then some longB else none,
   fun m => if m = model1 then some "id1" else none,
   some "fid"⟩

/-- Environment in which the first model returns `longB`, its record
write succeeds, and the fallback write would fail. -/
def envW2 : Env :=
  ⟨fun m => if m = model1 then some longB else none,
   fun m => if m = model1 then some "id1" else none,
   none⟩

/-- The record written for the accepted first model in `envW1`. -/
def recW1 : WriteRec :=
  ⟨"Math", "Beginner", "2 weeks", "pass exam", longB, model1, true⟩

/-- The response produced in `envW1` for `reqC`. -/
def respW1 : GenResponse :=
  ⟨200, some true, some longB, some "id1", some model1, some true, none, none, none⟩

/-- A character list with no digit has no first digit run. -/
theorem firstDigitRun_eq_none (cs : List Char) (h : ∀ c ∈ cs, ¬ c.isDigit) :
    firstDigitRun cs = none := by
  induction cs with
  | nil => rfl
  | cons c cs ih =>
    unfold firstDigitRun
    rw [if_neg (h c (List.mem_cons_self c cs))]
    exact ih fun x hx => h x (List.mem_cons_of_mem c hx)

/-- Claim C5: for every parsed week-count `w` of the fallback generator,
if `w ≤ 2` the Phase 1 line references only "Week 1" with no range, and
if `w > 2` the Phase 1 line references "Week 1-2". -/
theorem phase1_week_range (s l d g : String) :
    (parseWeeks d ≤ 2 →
      ∃ p q, generateFallbackPlan s l d g
        = p ++ "Phase 1: Foundation (Week 1)\n" ++ q) ∧
    (2 < parseWeeks d →
      ∃ p q, generateFallbackPlan s l d g
        = p ++ "Phase 1: Foundation (Week 1-2)\n" ++ q) := by
  constructor
  · intro h
    have h2 : ¬ 2 < parseWeeks d := Nat.not_lt.mpr h
    have h3 : ¬ 3 < parseWeeks d := by omega
    refine ⟨"Study Plan for " ++ s ++ " (" ++ l ++ " Level)\nDuration: " ++ d ++
      "\nGoals: " ++ g ++ "\n\n=== STUDY PLAN OVERVIEW ===\n\n",
      "- Review fundamental concepts\n- Gather materials\n- Establish routine (1-2 hrs/day)\n- Do basic exercises\n\nPhase 2: Core Learning (Week 2)\n- Deep dive into core topics\n- Practice problem-solving\n- Create notes/mind maps\n\nPhase 3: Advanced Application (Week " ++
      toString (ceil70 (parseWeeks d) + 1) ++ "-" ++ toString (parseWeeks d - 1) ++
      ")\n- Complex topics + real-world use\n- Case studies and scenarios\n- Integration of topics\n\nPhase 4: Review & Mastery (Final Week)\n- Final revision\n- Mock tests\n- Confidence boosting\n\n=== DAILY STRUCTURE ===\n\nMorning: Recap previous, prep new (~30 min)\nMidday: Learn/practice new (~60–90 min)\nEvening: Summarize & plan (~15 min)\n\n=== WEEKLY MILESTONES ===\n\nWeek 1: Foundation\nWeek 2: Core modules\nFinal Week: Goal ready!\n\nTips:\n- Use Pomodoro\n- Review often\n- Join groups / Ask questions\n- Be consistent\n\n(This is a fallback plan when AI is unavailable.)",
      ?_⟩
    unfold generateFallbackPlan fallbackPlanBody
    simp only [if_neg h2, if_neg h3]
    apply String.ext
    simp only [String.data_append, List.append_assoc]
    rfl
  · intro h
    refine ⟨"Study Plan for " ++ s ++ " (" ++ l ++ " Level)\nDuration: " ++ d ++
      "\nGoals: " ++ g ++ "\n\n=== STUDY PLAN OVERVIEW ===\n\n",
      "- Review fundamental concepts\n- Gather materials\n- Establish routine (1-2 hrs/day)\n- Do basic exercises\n\nPhase 2: Core Learning (Week 3-" ++
      toString (ceil70 (parseWeeks d)) ++
      ")\n- Deep dive into core topics\n- Practice problem-solving\n- Create notes/mind maps\n\nPhase 3: Advanced Application (Week " ++
      toString (ceil70 (parseWeeks d) + 1) ++ "-" ++ toString (parseWeeks d - 1) ++
      ")\n- Complex topics + real-world use\n- Case studies and scenarios\n- Integration of topics\n\nPhase 4: Review & Mastery (Final Week)\n- Final revision\n- Mock tests\n- Confidence boosting\n\n=== DAILY STRUCTURE ===\n\nMorning: Recap previous, prep new (~30 min)\nMidday: Learn/practice new (~60–90 min)\nEvening: Summarize & plan (~15 min)\n\n=== WEEKLY MILESTONES ===\n\nWeek 1: Foundation\nWeek 2: Core modules\nWeek 3: Applications\n" ++
      (if 3 < parseWeeks d then "Week 4: Mastery\n" else "") ++
      "Final Week: Goal ready!\n\nTips:\n- Use Pomodoro\n- Review often\n- Join groups / Ask questions\n- Be consistent\n\n(This is a fallback plan when AI is unavailable.)",
      ?_⟩
    unfold generateFallbackPlan fallbackPlanBody
    simp only [if_pos h]
    apply String.ext
    simp only [String.data_append, List.append_assoc]
    rfl

/-- Evaluation witness for `phase1_week_range` at the week counts 2 and
5. -/
theorem phase1_week_range_witness :
    (∃ p q, generateFallbackPlan "Math" "Beginner" "2 weeks" "pass exam"
      = p ++ "Phase 1: Foundation (Week 1)\n" ++ q) ∧
    (∃ p q, generateFallbackPlan "Math" "Beginner" "5 weeks" "pass exam"
      = p ++ "Phase 1: Foundation (Week 1-2)\n" ++ q) :=
  ⟨(phase1_week_range "Math" "Beginner" "2 weeks" "pass exam").1 (by decide),
   (phase1_week_range "Math" "Beginner" "5 weeks" "pass exam").2 (by decide)⟩

/-- Claim C6 fails at week-count 1: for the duration "1 week" the
parsed week-count is 1 and `ceil(1 * 0.7) = 1`, yet the Phase 2 line of
the generated plan reads "Week 2", not a range ending at 1 — so the
Phase 2 range does not end at `ceil(w * 0.7)`. -/
theorem phase2_end_cex_week1 :
    parseWeeks "1 week" = 1 ∧
    ceil70 (parseWeeks "1 week") = 1 ∧
    hasSeg (generateFallbackPlan "Math" "Beginner" "1 week" "pass exam")
      "Phase 2: Core Learning (Week 2)" = true ∧
    hasSeg (generateFallbackPlan "Math" "Beginner" "1 week" "pass exam")
      ("Phase 2: Core Learning (Week " ++
        toString (ceil70 (parseWeeks "1 week")) ++ ")") = false :=
  ⟨by decide, by decide, by decide, by decide⟩

/-- Claim C6 (amended): for every parsed week-count `w ≥ 2` the Phase 2
line's range ends at `ceil(w * 0.7)` (the week-count 1 plan instead
prints the constant "Week 2"); and for every parsed week-count the
Phase 3 line spans from `ceil(w * 0.7) + 1` through `w - 1` and the
Phase 4 line references the final week. -/
theorem phase_boundaries (s l d g : String) :
    (2 ≤ parseWeeks d →
      ∃ p q, generateFallbackPlan s l d g
        = p ++ ("Phase 2: Core Learning (Week " ++
            (if 2 < parseWeeks d then "3-" else "") ++
            toString (ceil70 (parseWeeks d)) ++ ")\n") ++ q) ∧
    (∃ p q, generateFallbackPlan s l d g
      = p ++ ("Phase 3: Advanced Application (Week " ++
          toString (ceil70 (parseWeeks d) + 1) ++ "-" ++
          toString (parseWeeks d - 1) ++ ")\n") ++ q ∧
      ∃ q1 q2, q = q1 ++ "Phase 4: Review & Mastery (Final Week)\n" ++ q2) := by
  constructor
  · intro h
    rcases Nat.lt_or_ge 2 (parseWeeks d) with h' | h'
    · refine ⟨"Study Plan for " ++ s ++ " (" ++ l ++ " Level)\nDuration: " ++ d ++
        "\nGoals: " ++ g ++
        "\n\n=== STUDY PLAN OVERVIEW ===\n\nPhase 1: Foundation (Week 1-2)\n- Review fundamental concepts\n- Gather materials\n- Establish routine (1-2 hrs/day)\n- Do basic exercises\n\n",
        "- Deep dive into core topics\n- Practice problem-solving\n- Create notes/mind maps\n\nPhase 3: Advanced Application (Week " ++
        toString (ceil70 (parseWeeks d) + 1) ++ "-" ++ toString (parseWeeks d - 1) ++
        ")\n- Complex topics + real-world use\n- Case studies and scenarios\n- Integration of topics\n\nPhase 4: Review & Mastery (Final Week)\n- Final revision\n- Mock tests\n- Confidence boosting\n\n=== DAILY STRUCTURE ===\n\nMorning: Recap previous, prep new (~30 min)\nMidday: Learn/practice new (~60–90 min)\nEvening: Summarize & plan (~15 min)\n\n=== WEEKLY MILESTONES ===\n\nWeek 1: Foundation\nWeek 2: Core modules\nWeek 3: Applications\n" ++
        (if 3 < parseWeeks d then "Week 4: Mastery\n" else "") ++
        "Final Week: Goal ready!\n\nTips:\n- Use Pomodoro\n- Review often\n- Join groups / Ask questions\n- Be consistent\n\n(This is a fallback plan when AI is unavailable.)",
        ?_⟩
      unfold generateFallbackPlan fallbackPlanBody
      simp only [if_pos h']
      apply String.ext
      simp only [String.data_append, List.append_assoc]
      rfl
    · have h2 : parseWeeks d = 2 := le_antisymm h' h
      refine ⟨"Study Plan for " ++ s ++ " (" ++ l ++ " Level)\nDuration: " ++ d ++
        "\nGoals: " ++ g ++
        "\n\n=== STUDY PLAN OVERVIEW ===\n\nPhase 1: Foundation (Week 1)\n- Review fundamental concepts\n- Gather materials\n- Establish routine (1-2 hrs/day)\n- Do basic exercises\n\n",
        "- Deep dive into core topics\n- Practice problem-solving\n- Create notes/mind maps\n\nPhase 3: Advanced Application (Week 3-1)\n- Complex topics + real-world use\n- Case studies and scenarios\n- Integration of topics\n\nPhase 4: Review & Mastery (Final Week)\n- Final revision\n- Mock tests\n- Confidence boosting\n\n=== DAILY STRUCTURE ===\n\nMorning: Recap previous, prep new (~30 min)\nMidday: Learn/practice new (~60–90 min)\nEvening: Summarize & plan (~15 min)\n\n=== WEEKLY MILESTONES ===\n\nWeek 1: Foundation\nWeek 2: Core modules\nFinal Week: Goal ready!\n\nTips:\n- Use Pomodoro\n- Review often\n- Join groups / Ask questions\n- Be consistent\n\n(This is a fallback plan when AI is unavailable.)",
        ?_⟩
      unfold generateFallbackPlan fallbackPlanBody
      rw [h2]
      apply String.ext
      simp only [String.data_append, List.append_assoc]
      rfl
  · refine ⟨"Study Plan for " ++ s ++ " (" ++ l ++ " Level)\nDuration: " ++ d ++
      "\nGoals: " ++ g ++ "\n\n=== STUDY PLAN OVERVIEW ===\n\nPhase 1: Foundation (Week 1" ++
      (if 2 < parseWeeks d then "-2" else "") ++
      ")\n- Review fundamental concepts\n- Gather materials\n- Establish routine (1-2 hrs/day)\n- Do basic exercises\n\nPhase 2: Core Learning (Week " ++
      (if 2 < parseWeeks d then "3-" ++ toString (ceil70 (parseWeeks d)) else "2") ++
      ")\n- Deep dive into core topics\n- Practice problem-solving\n- Create notes/mind maps\n\n",
      ("- Complex topics + real-world use\n- Case studies and scenarios\n- Integration of topics\n\n" ++
        "Phase 4: Review & Mastery (Final Week)\n" ++
        ("- Final revision\n- Mock tests\n- Confidence boosting\n\n=== DAILY STRUCTURE ===\n\nMorning: Recap previous, prep new (~30 min)\nMidday: Learn/practice new (~60–90 min)\nEvening: Summarize & plan (~15 min)\n\n=== WEEKLY MILESTONES ===\n\nWeek 1: Foundation\nWeek 2: Core modules\n" ++
          (if 2 < parseWeeks d then "Week 3: Applications\n" else "") ++
          (if 3 < parseWeeks d then "Week 4: Mastery\n" else "") ++
          "Final Week: Goal ready!\n\nTips:\n- Use Pomodoro\n- Review often\n- Join groups / Ask questions\n- Be consistent\n\n(This is a fallback plan when AI is unavailable.)")),
      ?_, "- Complex topics + real-world use\n- Case studies and scenarios\n- Integration of topics\n\n",
      "- Final revision\n- Mock tests\n- Confidence boosting\n\n=== DAILY STRUCTURE ===\n\nMorning: Recap previous, prep new (~30 min)\nMidday: Learn/practice new (~60–90 min)\nEvening: Summarize & plan (~15 min)\n\n=== WEEKLY MILESTONES ===\n\nWeek 1: Foundation\nWeek 2: Core modules\n" ++
      (if 2 < parseWeeks d then "Week 3: Applications\n" else "") ++
      (if 3 < parseWeeks d then "Week 4: Mastery\n" else "") ++
      "Final Week: Goal ready!\n\nTips:\n- Use Pomodoro\n- Review often\n- Join groups / Ask questions\n- Be consistent\n\n(This is a fallback plan when AI is unavailable.)",
      ?_⟩
    · unfold generateFallbackPlan fallbackPlanBody
      apply String.ext
      simp only [String.data_append, List.append_assoc]
      rfl
    · rfl

/-- Evaluation witness for `phase_boundaries` at the week count 5. -/
theorem phase_boundaries_witness :
    (∃ p q, generateFallbackPlan "Math" "Beginner" "5 weeks" "pass exam"
      = p ++ ("Phase 2: Core Learning (Week " ++
          (if 2 < parseWeeks "5 weeks" then "3-" else "") ++
          toString (ceil70 (parseWeeks "5 weeks")) ++ ")\n") ++ q) ∧
    (∃ p q, generateFallbackPlan "Math" "Beginner" "5 weeks" "pass exam"
      = p ++ ("Phase 3: Advanced Application (Week " ++
          toString (ceil70 (parseWeeks "5 weeks") + 1) ++ "-" ++
          toString (parseWeeks "5 weeks" - 1) ++ ")\n") ++ q ∧
      ∃ q1 q2, q = q1 ++ "Phase 4: Review & Mastery (Final Week)\n" ++ q2) :=
  ⟨(phase_boundaries "Math" "Beginner" "5 weeks" "pass exam").1 (by decide),
   (phase_boundaries "Math" "Beginner" "5 weeks" "pass exam").2⟩

/-- Claim C7: for every duration string with no digit substring, the
fallback generator produces the plan for a week-count of 4. -/
theorem no_digits_defaults_four_weeks (s l d g : String)
    (h : ∀ c ∈ d.data, ¬ c.isDigit) :
    parseWeeks d = 4 ∧
    generateFallbackPlan s l d g = fallbackPlanBody s l d g 4 := by
  have hp : parseWeeks d = 4 := by
    unfold parseWeeks
    rw [firstDigitRun_eq_none d.data h]
  exact ⟨hp, by unfold generateFallbackPlan; rw [hp]⟩

/-- Evaluation witness for `no_digits_defaults_four_weeks` on the
digit-free duration "soon". -/
theorem no_digits_defaults_four_weeks_witness :
    parseWeeks "soon" = 4 ∧
    generateFallbackPlan "Math" "Beginner" "soon" "pass exam"
      = fallbackPlanBody "Math" "Beginner" "soon" "pass exam" 4 :=
  no_digits_defaults_four_weeks "Math" "Beginner" "soon" "pass exam" (by decide)

/-- Claim C9: the fallback generator is deterministic — two runs on
identical inputs produce identical output text. -/
theorem fallback_deterministic (s l d g s' l' d' g' : String)
    (hs : s = s') (hl : l = l') (hd : d = d') (hg : g = g') :
    generateFallbackPlan s l d g = generateFallbackPlan s' l' d' g' := by
  rw [hs, hl, hd, hg]

/-- Evaluation witness for `fallback_deterministic` on a concrete
input. -/
theorem fallback_deterministic_witness :
    generateFallbackPlan "Math" "Beginner" "2 weeks" "pass exam"
      = generateFallbackPlan "Math" "Beginner" "2 weeks" "pass exam" :=
  fallback_deterministic "Math" "Beginner" "2 weeks" "pass exam"
    "Math" "Beginner" "2 weeks" "pass exam" rfl rfl rfl rfl

/-- Claim C10: a duration whose first digit run parses to 0 is treated
as a week-count of 4, exactly like a duration with no digits. -/
theorem zero_weeks_defaults_four (s l d g : String) (ds : List Char)
    (h1 : firstDigitRun d.data = some ds) (h0 : digitsToNat ds = 0) :
    parseWeeks d = 4 ∧
    generateFallbackPlan s l d g = fallbackPlanBody s l d g 4 := by
  have hp : parseWeeks d = 4 := by
    unfold parseWeeks
    rw [h1]
    show (if digitsToNat ds = 0 then 4 else digitsToNat ds) = 4
    rw [if_pos h0]
  exact ⟨hp, by unfold generateFallbackPlan; rw [hp]⟩

/-- Evaluation witness for `zero_weeks_defaults_four` on the duration
"0 weeks". -/
theorem zero_weeks_defaults_four_witness :
    parseWeeks "0 weeks" = 4 ∧
    generateFallbackPlan "Math" "Beginner" "0 weeks" "pass exam"
      = fallbackPlanBody "Math" "Beginner" "0 weeks" "pass exam" 4 :=
  zero_weeks_defaults_four "Math" "Beginner" "0 weeks" "pass exam" ['0']
    (by decide) (by decide)

/-- When every field is a nonempty string, validation passes and the
handler runs the core on the field values. -/
theorem handler_valid (env : Env) (s l d g : String)
    (hs : s ≠ "") (hl : l ≠ "") (hd : d ≠ "") (hg : g ≠ "") :
    generatePlanHandler env ⟨some s, some l, some d, some g⟩
      = generatePlanCore env s l d g := by
  unfold generatePlanHandler
  have hc : (falsy (some s) || falsy (some l) || falsy (some d) || falsy (some g))
      = false := by
    simp [falsy, hs, hl, hd, hg]
  rw [hc]
  rfl

/-- When every candidate is rejected (its call throws, its
`generated_text` is missing, or the raw text is shorter than 100
characters), the loop calls every candidate, attempts no write, and
accepts nothing. -/
theorem tryModels_rejected (env : Env) (s l d g p : String) (ms : List String)
    (h : ∀ m ∈ ms, ∀ t, env.genText m = some t → t.length < 100) :
    tryModels env s l d g p ms = (ms, [], none) := by
  induction ms with
  | nil => rfl
  | cons m rest ih =>
    have hrest : ∀ m' ∈ rest, ∀ t, env.genText m' = some t → t.length < 100 :=
      fun m' hm' => h m' (List.mem_cons_of_mem m hm')
    unfold tryModels
    cases hgm : env.genText m with
    | none => simp [hgm, ih hrest]
    | some t =>
      have hlt : t.length < 100 := h m (List.mem_cons_self m rest) t hgm
      simp [hgm, Nat.not_le.mpr hlt, ih hrest]

/-- Claim C8: a `/generate-plan` request with any of the four fields
absent is answered with HTTP 400, no text-generation call is made, and
no write to the document store is attempted. -/
theorem missing_field_400_no_persist (env : Env) (req : PlanRequest)
    (h : req.subject = none ∨ req.level = none ∨ req.duration = none ∨
      req.goals = none) :
    (generatePlanHandler env req).response.status = 400 ∧
    (generatePlanHandler env req).dbWrites = [] ∧
    (generatePlanHandler env req).genCalls = [] := by
  have hc : (falsy req.subject || falsy req.level || falsy req.duration ||
      falsy req.goals) = true := by
    rcases h with h | h | h | h <;> simp [falsy, h]
  unfold generatePlanHandler
  rw [hc]
  exact ⟨rfl, rfl, rfl⟩

/-- Evaluation witness for `missing_field_400_no_persist`: a request
missing the subject field. -/
theorem missing_field_400_no_persist_witness :
    (generatePlanHandler envC1 ⟨none, some "Beginner", some "2 weeks",
        some "pass exam"⟩).response.status = 400 ∧
    (generatePlanHandler envC1 ⟨none, some "Beginner", some "2 weeks",
        some "pass exam"⟩).dbWrites = [] ∧
    (generatePlanHandler envC1 ⟨none, some "Beginner", some "2 weeks",
        some "pass exam"⟩).genCalls = [] :=
  missing_field_400_no_persist envC1
    ⟨none, some "Beginner", some "2 weeks", some "pass exam"⟩ (Or.inl rfl)

/-- Claim C4: when every candidate model call fails or returns raw text
shorter than 100 characters, the response carries
`isAiGenerated = false` and its plan is exactly the deterministic
fallback generator's output on the same four request fields (whether or
not the fallback record write succeeds). -/
theorem exhaustion_returns_fallback (env : Env) (s l d g : String)
    (hs : s ≠ "") (hl : l ≠ "") (hd : d ≠ "") (hg : g ≠ "")
    (hall : ∀ m ∈ models, ∀ t, env.genText m = some t → t.length < 100) :
    (generatePlanHandler env ⟨some s, some l, some d, some g⟩).response.isAiGenerated
      = some false ∧
    (generatePlanHandler env ⟨some s, some l, some d, some g⟩).response.plan
      = some (generateFallbackPlan s l d g) := by
  rw [handler_valid env s l d g hs hl hd hg]
  have htry := tryModels_rejected env s l d g (buildPrompt s l d g) models hall
  simp only [generatePlanCore, htry]
  cases hf : env.persistFallback <;> simp [hf]

/-- Evaluation witness for `exhaustion_returns_fallback` in the
environment where every model call throws. -/
theorem exhaustion_returns_fallback_witness :
    (generatePlanHandler envNone reqC).response.isAiGenerated = some false ∧
    (generatePlanHandler envNone reqC).response.plan
      = some (generateFallbackPlan "Math" "Beginner" "2 weeks" "pass exam") :=
  exhaustion_returns_fallback envNone "Math" "Beginner" "2 weeks" "pass exam"
    (by decide) (by decide) (by decide) (by decide)
    (by intro m hm t ht; simp [envNone] at ht)

/-- Claim C1 fails: the 100-character acceptance threshold is applied
to the raw `generated_text` before the echoed prompt is stripped and
the result trimmed.  In `envC1` the first model returns exactly the
echoed prompt — a raw text long enough to pass the check — whose
stripped-and-trimmed remainder is empty (length 0 < 100), yet the
response is accepted from that model. -/
theorem acceptance_before_strip_cex :
    envC1.genText model1 = some promptC ∧
    100 ≤ promptC.length ∧
    (generatePlanHandler envC1 reqC).response.isAiGenerated = some true ∧
    (generatePlanHandler envC1 reqC).response.modelUsed = some model1 ∧
    (generatePlanHandler envC1 reqC).response.plan
      = some (stripAndTrim promptC promptC) ∧
    stripAndTrim promptC promptC = "" ∧
    (stripAndTrim promptC promptC).length < 100 :=
  ⟨by decide, by decide, by decide, by decide, by decide, by decide, by decide⟩

/-- Claim C1 (amended): the loop accepts the first candidate whose call
succeeds with a raw `generated_text` of length at least 100 — the
threshold is applied before prompt stripping and trimming — and whose
record write succeeds; the returned plan is that raw text with the
first occurrence of the prompt removed and whitespace trimmed. -/
theorem modelLoop_accepts_first_raw_long (env : Env)
    (s l d g prompt : String) (ms calls : List String) (ws : List WriteRec)
    (resp : GenResponse)
    (h : tryModels env s l d g prompt ms = (calls, ws, some resp)) :
    ∃ pre m post t, ms = pre ++ m :: post ∧
      (∀ m' t', m' ∈ pre → env.genText m' = some t' → 100 ≤ t'.length →
        env.persist m' = none) ∧
      env.genText m = some t ∧ 100 ≤ t.length ∧ env.persist m ≠ none ∧
      resp.modelUsed = some m ∧ resp.plan = some (stripAndTrim prompt t) ∧
      resp.isAiGenerated = some true := by
  induction ms generalizing calls ws resp with
  | nil => simp [tryModels] at h
  | cons m rest ih =>
    rcases hr : tryModels env s l d g prompt rest with ⟨cs, ws2, o⟩
    cases hgm : env.genText m with
    | none =>
      simp only [tryModels, hgm, hr] at h
      simp only [Prod.mk.injEq] at h
      obtain ⟨h1, h2, h3⟩ := h
      obtain ⟨pre, mm, post, t, hsplit, hpre, hgen, hlen, hper, hmu, hplan, hai⟩ :=
        ih cs ws2 resp (by rw [hr, h3])
      refine ⟨m :: pre, mm, post, t, by rw [hsplit, List.cons_append], ?_, hgen, hlen, hper,
        hmu, hplan, hai⟩
      intro m' t' hm' hgen' hlen'
      rcases List.mem_cons.mp hm' with rfl | hm'
      · rw [hgm] at hgen'
        exact Option.noConfusion hgen'
      · exact hpre m' t' hm' hgen' hlen'
    | some t0 =>
      by_cases hlen0 : 100 ≤ t0.length
      · cases hp : env.persist m with
        | some id =>
          simp only [tryModels, hgm, if_pos hlen0, hp] at h
          simp only [Prod.mk.injEq] at h
          obtain ⟨h1, h2, h3⟩ := h
          obtain rfl := (Option.some.injEq _ _).mp h3.symm
          refine ⟨[], m, rest, t0, rfl, ?_, hgm, hlen0, by simp [hp], rfl, rfl, rfl⟩
          intro m' t' hm' hgen' hlen'
          exact absurd hm' (List.not_mem_nil m')
        | none =>
          simp only [tryModels, hgm, if_pos hlen0, hp, hr] at h
          simp only [Prod.mk.injEq] at h
          obtain ⟨h1, h2, h3⟩ := h
          obtain ⟨pre, mm, post, t, hsplit, hpre, hgen, hlen, hper, hmu, hplan, hai⟩ :=
            ih cs ws2 resp (by rw [hr, h3])
          refine ⟨m :: pre, mm, post, t, by rw [hsplit, List.cons_append], ?_, hgen, hlen, hper,
            hmu, hplan, hai⟩
          intro m' t' hm' hgen' hlen'
          rcases List.mem_cons.mp hm' with rfl | hm'
          · exact hp
          · exact hpre m' t' hm' hgen' hlen'
      · simp only [tryModels, hgm, if_neg hlen0, hr] at h
        simp only [Prod.mk.injEq] at h
        obtain ⟨h1, h2, h3⟩ := h
        obtain ⟨pre, mm, post, t, hsplit, hpre, hgen, hlen, hper, hmu, hplan, hai⟩ :=
          ih cs ws2 resp (by rw [hr, h3])
        refine ⟨m :: pre, mm, post, t, by rw [hsplit, List.cons_append], ?_, hgen, hlen, hper,
          hmu, hplan, hai⟩
        intro m' t' hm' hgen' hlen'
        rcases List.mem_cons.mp hm' with rfl | hm'
        · rw [hgm] at hgen'
          obtain rfl := (Option.some.injEq _ _).mp hgen'
          exact absurd hlen' hlen0
        · exact hpre m' t' hm' hgen' hlen'

/-- Evaluation witness for `modelLoop_accepts_first_raw_long` in
`envW1`. -/
theorem modelLoop_accepts_first_raw_long_witness :
    ∃ pre m post t, models = pre ++ m :: post ∧
      (∀ m' t', m' ∈ pre → envW1.genText m' = some t' → 100 ≤ t'.length →
        envW1.persist m' = none) ∧
      envW1.genText m = some t ∧ 100 ≤ t.length ∧ envW1.persist m ≠ none ∧
      respW1.modelUsed = some m ∧ respW1.plan = some (stripAndTrim promptC t) ∧
      respW1.isAiGenerated = some true :=
  modelLoop_accepts_first_raw_long envW1 "Math" "Beginner" "2 weeks" "pass exam"
    promptC models [model1] [recW1] respW1 (by decide)

/-- Claim C2 fails when the first candidate's record write throws: in
`envC2` the first model returns a raw text of length at least 100, yet
a text-generation call is issued to the second candidate and
`modelUsed` is the second candidate's identifier, because the document
write for the first candidate's record — which sits inside the loop's
`try` — failed and the loop moved on. -/
theorem first_model_long_not_stopping_cex :
    envC2.genText model1 = some (promptC ++ longB) ∧
    100 ≤ (promptC ++ longB).length ∧
    (generatePlanHandler envC2 reqC).genCalls = [model1, model2] ∧
    (generatePlanHandler envC2 reqC).response.modelUsed = some model2 ∧
    model2 ≠ model1 :=
  ⟨by decide, by decide, by decide, by decide, by decide⟩

/-- Claim C2 (amended): if the first candidate returns a raw
`generated_text` of length at least 100 and the write of its plan
record succeeds, then no call is issued to any later candidate and
`modelUsed` is the first candidate's identifier. -/
theorem first_model_success_stops_chain (env : Env) (s l d g t id : String)
    (hs : s ≠ "") (hl : l ≠ "") (hd : d ≠ "") (hg : g ≠ "")
    (ht : env.genText model1 = some t) (hlen : 100 ≤ t.length)
    (hp : env.persist model1 = some id) :
    (generatePlanHandler env ⟨some s, some l, some d, some g⟩).genCalls
      = [model1] ∧
    (generatePlanHandler env ⟨some s, some l, some d, some g⟩).response.modelUsed
      = some model1 ∧
    (generatePlanHandler env ⟨some s, some l, some d, some g⟩).response.plan
      = some (stripAndTrim (buildPrompt s l d g) t) := by
  rw [handler_valid env s l d g hs hl hd hg]
  have ht' : env.genText "mistralai/Mistral-7B-Instruct-v0.3" = some t := ht
  have hp' : env.persist "mistralai/Mistral-7B-Instruct-v0.3" = some id := hp
  have htry : tryModels env s l d g (buildPrompt s l d g) models
      = (["mistralai/Mistral-7B-Instruct-v0.3"],
         [⟨s, l, d, g, stripAndTrim (buildPrompt s l d g) t,
           "mistralai/Mistral-7B-Instruct-v0.3", true⟩],
         some { status := 200, success := some true,
                plan := some (stripAndTrim (buildPrompt s l d g) t),
                planId := some id,
                modelUsed := some "mistralai/Mistral-7B-Instruct-v0.3",
                isAiGenerated := some true, message := none, warning := none,
                error := none }) := by
    simp [models, tryModels, ht', hp', hlen]
  simp only [generatePlanCore, htry]
  exact ⟨rfl, rfl, trivial⟩

/-- Evaluation witness for `first_model_success_stops_chain` in
`envW2`. -/
theorem first_model_success_stops_chain_witness :
    (generatePlanHandler envW2 reqC).genCalls = [model1] ∧
    (generatePlanHandler envW2 reqC).response.modelUsed = some model1 ∧
    (generatePlanHandler envW2 reqC).response.plan
      = some (stripAndTrim (buildPrompt "Math" "Beginner" "2 weeks" "pass exam") longB) :=
  first_model_success_stops_chain envW2 "Math" "Beginner" "2 weeks" "pass exam"
    longB "id1" (by decide) (by decide) (by decide) (by decide) (by decide)
    (by decide) (by decide)

/-- Claim C3 fails for an AI-generated plan: in `envC3` the first model
returns the echoed prompt plus "EXTRA STUDY CONTENT", so an AI plan is
computed and the write of its record is attempted and fails — and the
response does not return that computed plan and carries no warning; it
returns the fallback plan instead, because the failed write is caught
by the model loop, not swallowed in place. -/
theorem ai_persist_failure_not_advisory_cex :
    envC3.genText model1 = some (promptC ++ "EXTRA STUDY CONTENT") ∧
    envC3.persist model1 = none ∧
    (generatePlanHandler envC3 reqC).dbWrites.head? = some
      ⟨"Math", "Beginner", "2 weeks", "pass exam", "EXTRA STUDY CONTENT",
        model1, true⟩ ∧
    (generatePlanHandler envC3 reqC).response.plan ≠ some "EXTRA STUDY CONTENT" ∧
    (generatePlanHandler envC3 reqC).response.warning = none :=
  ⟨by decide, by decide, by decide, by decide, by decide⟩

/-- Claim C3 (amended): a failed write of the fallback plan record is
swallowed — the response still returns the fallback plan, with the
failure reported only through the advisory `warning` key; a failed
write of an AI plan record, by contrast, is caught inside the model
loop and the next candidate is attempted instead of that plan being
returned. -/
theorem fallback_persist_failure_advisory :
    (∀ (env : Env) (s l d g : String) (calls : List String) (ws : List WriteRec),
      s ≠ "" → l ≠ "" → d ≠ "" → g ≠ "" →
      tryModels env s l d g (buildPrompt s l d g) models = (calls, ws, none) →
      env.persistFallback = none →
      (generatePlanHandler env ⟨some s, some l, some d, some g⟩).response.status
        = 200 ∧
      (generatePlanHandler env ⟨some s, some l, some d, some g⟩).response.success
        = some true ∧
      (generatePlanHandler env ⟨some s, some l, some d, some g⟩).response.plan
        = some (generateFallbackPlan s l d g) ∧
      (generatePlanHandler env ⟨some s, some l, some d, some g⟩).response.warning
        = some "Fallback plan not saved due to DB error") ∧
    (∀ (env : Env) (s l d g prompt m t : String) (rest : List String),
      env.genText m = some t → 100 ≤ t.length → env.persist m = none →
      (tryModels env s l d g prompt (m :: rest)).2.2
        = (tryModels env s l d g prompt rest).2.2) := by
  constructor
  · intro env s l d g calls ws hs hl hd hg htry hfb
    rw [handler_valid env s l d g hs hl hd hg]
    simp only [generatePlanCore, htry, hfb]
    exact ⟨trivial, trivial, trivial, trivial⟩
  · intro env s l d g prompt m t rest ht hlen hp
    simp [tryModels, ht, hlen, hp]

/-- Evaluation witness for `fallback_persist_failure_advisory`: the
first part in the environment where everything throws, the second part
for `envC3` and the first candidate. -/
theorem fallback_persist_failure_advisory_witness :
    ((generatePlanHandler envNone reqC).response.status = 200 ∧
     (generatePlanHandler envNone reqC).response.success = some true ∧
     (generatePlanHandler envNone reqC).response.plan
       = some (generateFallbackPlan "Math" "Beginner" "2 weeks" "pass exam") ∧
     (generatePlanHandler envNone reqC).response.warning
       = some "Fallback plan not saved due to DB error") ∧
    (tryModels envC3 "Math" "Beginner" "2 weeks" "pass exam" promptC
        (model1 :: [])).2.2
      = (tryModels envC3 "Math" "Beginner" "2 weeks" "pass exam" promptC []).2.2 :=
  ⟨fallback_persist_failure_advisory.1 envNone "Math" "Beginner" "2 weeks"
      "pass exam" models [] (by decide) (by decide) (by decide) (by decide)
      (by decide) rfl,
   fallback_persist_failure_advisory.2 envC3 "Math" "Beginner" "2 weeks"
      "pass exam" promptC model1 (promptC ++ "EXTRA STUDY CONTENT") []
      (by decide) (by decide) (by decide)⟩
